import Mathlib

/-!
Verification development for the sigstore attestation verification layer
of the `gh attestation verify` command (package `verification`, file with
`LiveSigstoreVerifier`).

The embedding models the decision and orchestration layer:

* `resolveIssuer` — the issuer-resolution head of `chooseVerifier`
  (extraction of the leaf certificate's single issuer organization);
* `chooseVerifier` — verifier selection plus trust-root materialization,
  instrumented with the list of trust domains for which a verifier
  constructor (Trust Root Provider) was invoked;
* `verifyAttestations` / `Verify` — the batch orchestration loop,
  instrumented with the list of attestations handed to the external
  Signature Verification Capability.

External collaborators (verifier constructors, the cryptographic verify
call) are parameters gathered in `SigstoreEnv`.  Errors are modelled as an
inductive type `VerifyError` whose `message` function reproduces the exact
format strings of the source.
-/

/-- Trust domains of the source: Public Good, GitHub, or a caller-supplied
custom trusted root. -/
inductive TrustDomain : Type
  | publicGood
  | github
  | custom
  deriving DecidableEq, BEq, Repr

/-- Leaf certificate, reduced to the field the selection logic inspects:
`Issuer.Organization`, a list of organization strings. -/
structure Certificate : Type where
  issuerOrganization : List String
  deriving DecidableEq, Repr

/-- Bundle verification content; `HasCertificate` of the source is modelled
by the optional certificate field. -/
structure VerificationContent : Type where
  certificate : Option Certificate
  deriving DecidableEq, Repr

instance exceptDecidableEq {ε α : Type} [DecidableEq ε] [DecidableEq α] :
    DecidableEq (Except ε α)
  | .error e1, .error e2 =>
    if h : e1 = e2 then .isTrue (by rw [h]) else
      .isFalse (by intro hc; injection hc; exact h (by assumption))
  | .error _, .ok _ => .isFalse (by intro hc; exact Except.noConfusion hc)
  | .ok _, .error _ => .isFalse (by intro hc; exact Except.noConfusion hc)
  | .ok a1, .ok a2 =>
    if h : a1 = a2 then .isTrue (by rw [h]) else
      .isFalse (by intro hc; injection hc; exact h (by assumption))

/-- Protobuf bundle: `VerificationContent()` may fail (modelled as
`Except String`), and the bundle carries further opaque payload (signature,
statement, ...) that only the external cryptographic verifier inspects. -/
structure ProtobufBundle : Type where
  verificationContent : Except String VerificationContent
  payload : String
  deriving DecidableEq, Repr

/-- An attestation, reduced to the bundle the verifier inspects. -/
structure Attestation : Type where
  bundle : ProtobufBundle
  deriving DecidableEq, Repr

/-- SigstoreConfig of the source: custom trusted-root path, logger handle
(opaque; only printed to), and the no-public-good flag. -/
structure SigstoreConfig : Type where
  customTrustedRoot : String
  logger : String
  noPublicGood : Bool
  deriving DecidableEq, Repr

/-- Issuer organization string of the Sigstore Public Good instance. -/
def PublicGoodIssuerOrg : String := "sigstore.dev"

/-- Issuer organization string of the GitHub Sigstore instance. -/
def GitHubIssuerOrg : String := "GitHub, Inc."

/-- Errors produced by the verification layer.  Each constructor
corresponds to one `fmt.Errorf` site of the source; `VerifyError.message`
reproduces the exact strings. -/
inductive VerifyError : Type
  | bundleContentError (msg : String)
  | leafCertNotFound
  | ambiguousIssuer
  | customVerifierError (msg : String)
  | publicGoodVerifierError (msg : String)
  | gitHubVerifierError (msg : String)
  | unrecognizedIssuer
  | chooseVerifierFailed (inner : VerifyError)
  | verificationFailed (issuer : String) (msg : String)
  deriving DecidableEq, Repr

/-- Renders each error to the exact `fmt.Errorf` string of the source. -/
def VerifyError.message : VerifyError → String
  | .bundleContentError msg => "failed to get bundle verification content: " ++ msg
  | .leafCertNotFound => "leaf cert not found"
  | .ambiguousIssuer => "expected the leaf certificate issuer to only have one organization"
  | .customVerifierError msg => "failed to create custom verifier: " ++ msg
  | .publicGoodVerifierError msg => "failed to create Public Good Sigstore verifier: " ++ msg
  | .gitHubVerifierError msg => "failed to create GitHub Sigstore verifier: " ++ msg
  | .unrecognizedIssuer => "leaf certificate issuer is not recognized"
  | .chooseVerifierFailed inner =>
      "failed to find recognized issuer from bundle content: " ++ inner.message
  | .verificationFailed issuer msg =>
      "verifying with issuer \"" ++ issuer ++ "\": " ++ msg

/-- External collaborators of the layer: the three verifier constructors
(delegating to the Trust Root Provider) and the Signature Verification
Capability (`verifier.Verify`).  `V` is the verifier handle type, `R` the
opaque verification result, `P` the opaque policy. -/
structure SigstoreEnv (V R P : Type) : Type where
  newCustomVerifier : String → Except String V
  newGitHubVerifier : Unit → Except String V
  newPublicGoodVerifier : Unit → Except String V
  verifierVerify : V → ProtobufBundle → P → Except String R

/-- AttestationProcessingResult of the source: one input attestation
paired with its verification result (`none` while unverified). -/
structure AttestationProcessingResult (R : Type) : Type where
  attestation : Attestation
  verificationResult : Option R
  deriving DecidableEq, Repr

/-- SigstoreResults of the source: the result sequence and the error. -/
structure SigstoreResults (R : Type) : Type where
  verifyResults : List (AttestationProcessingResult R)
  error : Option VerifyError
  deriving DecidableEq, Repr

/-- Outcome of the orchestration loop, instrumented with the trust domains
for which a verifier constructor was invoked (`providerCalls`) and the
attestations handed to the Signature Verification Capability
(`svcCalls`). -/
structure VerifyOutcome (R : Type) : Type where
  result : Except VerifyError (List (AttestationProcessingResult R))
  providerCalls : List TrustDomain
  svcCalls : List Attestation
  deriving Repr

/-- Embedding of `LiveSigstoreVerifier.chooseVerifier`: extract the bundle's
verification content and leaf certificate, require exactly one issuer
organization, then pick and materialize a verifier — custom root first,
then Public Good, then GitHub, else fail.  The second component records the
trust domains for which a verifier constructor was invoked. -/
def chooseVerifier {V R P : Type} (env : SigstoreEnv V R P) (config : SigstoreConfig)
    (b : ProtobufBundle) : Except VerifyError (V × String) × List TrustDomain :=
  match b.verificationContent with
  | .error err => (.error (.bundleContentError err), [])
  | .ok verifyContent =>
    match verifyContent.certificate with
    | none => (.error .leafCertNotFound, [])
    | some leafCert =>
      if leafCert.issuerOrganization.length ≠ 1 then
        (.error .ambiguousIssuer, [])
      else
        let issuer := leafCert.issuerOrganization.headD ""
        if config.customTrustedRoot ≠ "" then
          match env.newCustomVerifier config.customTrustedRoot with
          | .error err => (.error (.customVerifierError err), [.custom])
          | .ok customVerifier => (.ok (customVerifier, issuer), [.custom])
        else if issuer = PublicGoodIssuerOrg ∧ config.noPublicGood = false then
          match env.newPublicGoodVerifier () with
          | .error err => (.error (.publicGoodVerifierError err), [.publicGood])
          | .ok publicGoodVerifier => (.ok (publicGoodVerifier, issuer), [.publicGood])
        else if issuer = GitHubIssuerOrg ∨ config.noPublicGood = true then
          match env.newGitHubVerifier () with
          | .error err => (.error (.gitHubVerifierError err), [.github])
          | .ok ghVerifier => (.ok (ghVerifier, issuer), [.github])
        else
          (.error .unrecognizedIssuer, [])

/-- The orchestration loop of `LiveSigstoreVerifier.Verify`: for each
attestation in order, select a verifier and invoke the Signature
Verification Capability; on the first failure stop with a single wrapped
error, otherwise pair every attestation with its result. -/
def verifyAttestations {V R P : Type} (env : SigstoreEnv V R P) (config : SigstoreConfig)
    (policy : P) : List Attestation → VerifyOutcome R
  | [] => ⟨.ok [], [], []⟩
  | att :: rest =>
    match chooseVerifier env config att.bundle with
    | (.error err, pcalls) =>
      ⟨.error (.chooseVerifierFailed err), pcalls, []⟩
    | (.ok (verifier, issuer), pcalls) =>
      match env.verifierVerify verifier att.bundle policy with
      | .error err =>
        ⟨.error (.verificationFailed issuer err), pcalls, [att]⟩
      | .ok result =>
        let out := verifyAttestations env config policy rest
        ⟨(match out.result with
          | .error e => .error e
          | .ok aprs => .ok ({ attestation := att, verificationResult := some result } :: aprs)),
          pcalls ++ out.providerCalls, att :: out.svcCalls⟩

/-- Embedding of `LiveSigstoreVerifier.Verify`: run the loop; on failure
return a `SigstoreResults` holding only the error, on success one holding
only the ordered result sequence. -/
def Verify {V R P : Type} (env : SigstoreEnv V R P) (config : SigstoreConfig)
    (attestations : List Attestation) (policy : P) : SigstoreResults R :=
  match (verifyAttestations env config policy attestations).result with
  | .error e => { verifyResults := [], error := some e }
  | .ok results => { verifyResults := results, error := none }

/-- Issuer Resolver: the head of `chooseVerifier` (source lines extracting
content, certificate and the single issuer organization), as its own
function. -/
def resolveIssuer (b : ProtobufBundle) : Except VerifyError String :=
  match b.verificationContent with
  | .error err => .error (.bundleContentError err)
  | .ok verifyContent =>
    match verifyContent.certificate with
    | none => .error .leafCertNotFound
    | some leafCert =>
      if leafCert.issuerOrganization.length ≠ 1 then .error .ambiguousIssuer
      else .ok (leafCert.issuerOrganization.headD "")

/-- Verifier Selector as a pure function of the resolved issuer and the
configuration: the branch structure of `chooseVerifier` after issuer
resolution, with materialization stripped. -/
def selectDomain (config : SigstoreConfig) (issuer : String) : Except VerifyError TrustDomain :=
  if config.customTrustedRoot ≠ "" then .ok .custom
  else if issuer = PublicGoodIssuerOrg ∧ config.noPublicGood = false then .ok .publicGood
  else if issuer = GitHubIssuerOrg ∨ config.noPublicGood = true then .ok .github
  else .error .unrecognizedIssuer

/-- An attestation fails when verifier selection fails or the cryptographic
verification call fails. -/
def attFails {V R P : Type} (env : SigstoreEnv V R P) (config : SigstoreConfig)
    (policy : P) (att : Attestation) : Bool :=
  match (chooseVerifier env config att.bundle).1 with
  | .error _ => true
  | .ok (verifier, _) =>
    match env.verifierVerify verifier att.bundle policy with
    | .error _ => true
    | .ok _ => false

/-- The verification result the capability produces for one attestation,
when selection and verification both succeed. -/
def attResult {V R P : Type} (env : SigstoreEnv V R P) (config : SigstoreConfig)
    (policy : P) (att : Attestation) : Option R :=
  match (chooseVerifier env config att.bundle).1 with
  | .error _ => none
  | .ok (verifier, _) => (env.verifierVerify verifier att.bundle policy).toOption

/-! ### Concrete fixtures used by witnesses and counterexamples -/

/-- A leaf certificate whose issuer declares exactly the Public Good
organization. -/
def goodCert : Certificate := { issuerOrganization := ["sigstore.dev"] }

/-- A well-formed bundle carrying `goodCert`, which the test capability
verifies successfully. -/
def goodBundle : ProtobufBundle :=
  { verificationContent := .ok { certificate := some goodCert }, payload := "good" }

/-- A well-formed bundle carrying `goodCert`, which the test capability
rejects. -/
def badBundle : ProtobufBundle :=
  { verificationContent := .ok { certificate := some goodCert }, payload := "bad" }

/-- A bundle whose verification content holds no certificate. -/
def noCertBundle : ProtobufBundle :=
  { verificationContent := .ok { certificate := none }, payload := "" }

/-- Attestation wrapping `goodBundle`. -/
def goodAtt : Attestation := { bundle := goodBundle }

/-- Attestation wrapping `badBundle`. -/
def badAtt : Attestation := { bundle := badBundle }

/-- Attestation wrapping `noCertBundle`. -/
def noCertAtt : Attestation := { bundle := noCertBundle }

/-- Test collaborators: every verifier constructor succeeds, and the
capability rejects exactly the bundles with payload `"bad"`. -/
def testEnv : SigstoreEnv Unit Unit Unit :=
  { newCustomVerifier := fun _ => .ok ()
    newGitHubVerifier := fun _ => .ok ()
    newPublicGoodVerifier := fun _ => .ok ()
    verifierVerify := fun _ b _ => if b.payload = "bad" then .error "boom" else .ok () }

/-- Default test configuration: no custom root, public good enabled. -/
def testConfig : SigstoreConfig :=
  { customTrustedRoot := "", logger := "", noPublicGood := false }

/-- Test configuration with a custom trusted-root path. -/
def customConfig : SigstoreConfig :=
  { customTrustedRoot := "trustedroot.json", logger := "", noPublicGood := false }

/-! ### Linking lemmas between `chooseVerifier`, `resolveIssuer` and
`selectDomain` -/

theorem chooseVerifier_resolve_error {V R P : Type} (env : SigstoreEnv V R P)
    (config : SigstoreConfig) (b : ProtobufBundle) (e : VerifyError)
    (h : resolveIssuer b = .error e) :
    chooseVerifier env config b = (.error e, []) := by
  unfold resolveIssuer at h
  unfold chooseVerifier
  cases hvc : b.verificationContent with
  | error err =>
    simp only [hvc] at h ⊢
    injection h with h1
    rw [← h1]
  | ok vc =>
    simp only [hvc] at h ⊢
    cases hc : vc.certificate with
    | none =>
      simp only [hc] at h ⊢
      injection h with h1
      rw [← h1]
    | some leafCert =>
      simp only [hc] at h ⊢
      by_cases hl : leafCert.issuerOrganization.length ≠ 1
      · rw [if_pos hl] at h
        injection h with h1
        rw [if_pos hl, ← h1]
      · rw [if_neg hl] at h
        exact absurd h (by simp)

theorem chooseVerifier_resolve_ok {V R P : Type} (env : SigstoreEnv V R P)
    (config : SigstoreConfig) (b : ProtobufBundle) (s : String)
    (h : resolveIssuer b = .ok s) :
    chooseVerifier env config b =
      (if config.customTrustedRoot ≠ "" then
        match env.newCustomVerifier config.customTrustedRoot with
        | .error err => (.error (.customVerifierError err), [.custom])
        | .ok customVerifier => (.ok (customVerifier, s), [.custom])
      else if s = PublicGoodIssuerOrg ∧ config.noPublicGood = false then
        match env.newPublicGoodVerifier () with
        | .error err => (.error (.publicGoodVerifierError err), [.publicGood])
        | .ok publicGoodVerifier => (.ok (publicGoodVerifier, s), [.publicGood])
      else if s = GitHubIssuerOrg ∨ config.noPublicGood = true then
        match env.newGitHubVerifier () with
        | .error err => (.error (.gitHubVerifierError err), [.github])
        | .ok ghVerifier => (.ok (ghVerifier, s), [.github])
      else (.error .unrecognizedIssuer, [])) := by
  unfold resolveIssuer at h
  unfold chooseVerifier
  cases hvc : b.verificationContent with
  | error err =>
    simp only [hvc] at h
    exact absurd h (by simp)
  | ok vc =>
    simp only [hvc] at h ⊢
    cases hc : vc.certificate with
    | none =>
      simp only [hc] at h
      exact absurd h (by simp)
    | some leafCert =>
      simp only [hc] at h ⊢
      by_cases hl : leafCert.issuerOrganization.length ≠ 1
      · rw [if_pos hl] at h
        exact absurd h (by simp)
      · rw [if_neg hl] at h
        injection h with h1
        simp only [if_neg hl, h1]

theorem chooseVerifier_ok_trace_length {V R P : Type} (env : SigstoreEnv V R P)
    (config : SigstoreConfig) (b : ProtobufBundle) (v : V) (s : String)
    (h : (chooseVerifier env config b).1 = .ok (v, s)) :
    (chooseVerifier env config b).2.length = 1 := by
  cases hres : resolveIssuer b with
  | error e =>
    rw [chooseVerifier_resolve_error env config b e hres] at h
    exact absurd h (by simp)
  | ok s2 =>
    rw [chooseVerifier_resolve_ok env config b s2 hres] at h ⊢
    by_cases h1 : config.customTrustedRoot ≠ ""
    · rw [if_pos h1]
      cases hx : env.newCustomVerifier config.customTrustedRoot <;> simp [hx]
    · rw [if_neg h1] at h ⊢
      by_cases h2 : s2 = PublicGoodIssuerOrg ∧ config.noPublicGood = false
      · rw [if_pos h2]
        cases hx : env.newPublicGoodVerifier () <;> simp [hx]
      · rw [if_neg h2] at h ⊢
        by_cases h3 : s2 = GitHubIssuerOrg ∨ config.noPublicGood = true
        · rw [if_pos h3]
          cases hx : env.newGitHubVerifier () <;> simp [hx]
        · rw [if_neg h3] at h
          exact absurd h (by simp)

theorem verifyAttestations_nil {V R P : Type} (env : SigstoreEnv V R P)
    (config : SigstoreConfig) (policy : P) :
    verifyAttestations env config policy [] = ⟨.ok [], [], []⟩ := rfl

theorem verifyAttestations_cons_choose_error {V R P : Type} (env : SigstoreEnv V R P)
    (config : SigstoreConfig) (policy : P) (a : Attestation) (rest : List Attestation)
    (err : VerifyError) (pcalls : List TrustDomain)
    (h : chooseVerifier env config a.bundle = (.error err, pcalls)) :
    verifyAttestations env config policy (a :: rest) =
      ⟨.error (.chooseVerifierFailed err), pcalls, []⟩ := by
  unfold verifyAttestations
  simp only [h]

theorem verifyAttestations_cons_verify_error {V R P : Type} (env : SigstoreEnv V R P)
    (config : SigstoreConfig) (policy : P) (a : Attestation) (rest : List Attestation)
    (vf : V) (iss : String) (pcalls : List TrustDomain) (msg : String)
    (hcv : chooseVerifier env config a.bundle = (.ok (vf, iss), pcalls))
    (hvv : env.verifierVerify vf a.bundle policy = .error msg) :
    verifyAttestations env config policy (a :: rest) =
      ⟨.error (.verificationFailed iss msg), pcalls, [a]⟩ := by
  unfold verifyAttestations
  simp only [hcv, hvv]

theorem verifyAttestations_cons_ok {V R P : Type} (env : SigstoreEnv V R P)
    (config : SigstoreConfig) (policy : P) (a : Attestation) (rest : List Attestation)
    (vf : V) (iss : String) (pcalls : List TrustDomain) (r : R)
    (hcv : chooseVerifier env config a.bundle = (.ok (vf, iss), pcalls))
    (hvv : env.verifierVerify vf a.bundle policy = .ok r) :
    verifyAttestations env config policy (a :: rest) =
      ⟨(match (verifyAttestations env config policy rest).result with
        | .error e => .error e
        | .ok aprs => .ok ({ attestation := a, verificationResult := some r } :: aprs)),
        pcalls ++ (verifyAttestations env config policy rest).providerCalls,
        a :: (verifyAttestations env config policy rest).svcCalls⟩ := by
  conv_lhs => unfold verifyAttestations
  simp only [hcv, hvv]

theorem attFails_false_iff {V R P : Type} (env : SigstoreEnv V R P)
    (config : SigstoreConfig) (policy : P) (a : Attestation) :
    attFails env config policy a = false ↔
      ∃ vf s r, (chooseVerifier env config a.bundle).1 = .ok (vf, s) ∧
        env.verifierVerify vf a.bundle policy = .ok r := by
  unfold attFails
  cases h1 : (chooseVerifier env config a.bundle).1 with
  | error e =>
    simp only []
    constructor
    · intro h; exact absurd h (by simp)
    · rintro ⟨vf, s, r, hok, _⟩
      exact absurd hok (by simp)
  | ok vs =>
    obtain ⟨vf, s⟩ := vs
    simp only []
    cases h2 : env.verifierVerify vf a.bundle policy with
    | error msg =>
      constructor
      · intro h; exact absurd h (by simp)
      · rintro ⟨vf2, s2, r2, hok, hvv⟩
        injection hok with he
        obtain ⟨rfl, rfl⟩ := Prod.mk.injEq .. ▸ And.intro (congrArg Prod.fst he) (congrArg Prod.snd he)
        rw [h2] at hvv
        exact absurd hvv (by simp)
    | ok r =>
      constructor
      · intro _; exact ⟨vf, s, r, rfl, h2⟩
      · intro _; rfl

theorem attFails_true_elim {V R P : Type} (env : SigstoreEnv V R P)
    (config : SigstoreConfig) (policy : P) (a : Attestation)
    (h : attFails env config policy a = true) :
    (∃ e, (chooseVerifier env config a.bundle).1 = .error e) ∨
    (∃ vf s msg, (chooseVerifier env config a.bundle).1 = .ok (vf, s) ∧
      env.verifierVerify vf a.bundle policy = .error msg) := by
  unfold attFails at h
  cases h1 : (chooseVerifier env config a.bundle).1 with
  | error e => exact .inl ⟨e, rfl⟩
  | ok vs =>
    obtain ⟨vf, s⟩ := vs
    simp only [h1] at h
    cases h2 : env.verifierVerify vf a.bundle policy with
    | error msg => exact .inr ⟨vf, s, msg, rfl, h2⟩
    | ok r =>
      simp only [h2] at h
      exact absurd h (by simp)

theorem verifyAttestations_ok_length {V R P : Type} (env : SigstoreEnv V R P)
    (config : SigstoreConfig) (policy : P) :
    ∀ (atts : List Attestation) (l : List (AttestationProcessingResult R)),
      (verifyAttestations env config policy atts).result = .ok l →
      l.length = atts.length := by
  intro atts
  induction atts with
  | nil =>
    intro l h
    rw [verifyAttestations_nil] at h
    injection h with h1
    rw [← h1]
    rfl
  | cons a rest ih =>
    intro l h
    cases h1 : (chooseVerifier env config a.bundle).1 with
    | error e =>
      have hpair : chooseVerifier env config a.bundle =
          (.error e, (chooseVerifier env config a.bundle).2) := by rw [← h1]
      rw [verifyAttestations_cons_choose_error env config policy a rest e _ hpair] at h
      exact absurd h (by simp)
    | ok vs =>
      obtain ⟨vf, s⟩ := vs
      have hpair : chooseVerifier env config a.bundle =
          (.ok (vf, s), (chooseVerifier env config a.bundle).2) := by rw [← h1]
      cases h2 : env.verifierVerify vf a.bundle policy with
      | error msg =>
        rw [verifyAttestations_cons_verify_error env config policy a rest vf s _ msg hpair h2] at h
        exact absurd h (by simp)
      | ok r =>
        rw [verifyAttestations_cons_ok env config policy a rest vf s _ r hpair h2] at h
        simp only [] at h
        cases h3 : (verifyAttestations env config policy rest).result with
        | error e =>
          simp only [h3] at h
          exact absurd h (by simp)
        | ok aprs =>
          simp only [h3] at h
          injection h with h4
          rw [← h4]
          simp [ih aprs h3]

theorem verifyAttestations_all_ok {V R P : Type} (env : SigstoreEnv V R P)
    (config : SigstoreConfig) (policy : P) :
    ∀ atts : List Attestation, (∀ a ∈ atts, attFails env config policy a = false) →
      verifyAttestations env config policy atts =
        ⟨.ok (atts.map fun a => ⟨a, attResult env config policy a⟩),
          atts.flatMap fun a => (chooseVerifier env config a.bundle).2,
          atts⟩ := by
  intro atts
  induction atts with
  | nil => intro _; rw [verifyAttestations_nil]; simp
  | cons a rest ih =>
    intro hall
    have ha : attFails env config policy a = false := hall a (by simp)
    obtain ⟨vf, s, r, h1, h2⟩ := (attFails_false_iff env config policy a).1 ha
    have hpair : chooseVerifier env config a.bundle =
        (.ok (vf, s), (chooseVerifier env config a.bundle).2) := by rw [← h1]
    have hrest := ih (fun x hx => hall x (by simp [hx]))
    have hres : attResult env config policy a = some r := by
      unfold attResult
      simp only [h1, h2]
      rfl
    rw [verifyAttestations_cons_ok env config policy a rest vf s _ r hpair h2, hrest]
    simp [hres, List.flatMap_cons]

/-! ### Claim theorems -/

/-- C5: issuer resolution fails with a MalformedBundle-class error exactly
when the bundle carries no verification content or no certificate, fails
with the AmbiguousIssuer error exactly when the leaf certificate's issuer
declares a number of organizations different from one, and otherwise
returns that single organization string.  (`resolveIssuer` is a pure
function of the bundle, so it has no side effects by construction.) -/
theorem resolveIssuer_raises_iff (b : ProtobufBundle) :
    (((∃ msg, resolveIssuer b = .error (.bundleContentError msg)) ∨
        resolveIssuer b = .error .leafCertNotFound) ↔
      ((∃ msg, b.verificationContent = .error msg) ∨
        (∃ vc, b.verificationContent = .ok vc ∧ vc.certificate = none))) ∧
    ((resolveIssuer b = .error .ambiguousIssuer) ↔
      (∃ vc c, b.verificationContent = .ok vc ∧ vc.certificate = some c ∧
        c.issuerOrganization.length ≠ 1)) ∧
    (∀ vc c s, b.verificationContent = .ok vc → vc.certificate = some c →
      c.issuerOrganization = [s] → resolveIssuer b = .ok s) := by
  unfold resolveIssuer
  cases hvc : b.verificationContent with
  | error msg =>
    refine ⟨by simp, by simp, ?_⟩
    intro vc c s h1 _ _
    exact absurd h1 (by simp)
  | ok vc =>
    cases hc : vc.certificate with
    | none =>
      refine ⟨by simp [hc], by simp [hc], ?_⟩
      intro vc2 c s h1 h2 _
      injection h1 with h1e
      rw [← h1e, hc] at h2
      exact absurd h2 (by simp)
    | some leafCert =>
      by_cases hl : leafCert.issuerOrganization.length ≠ 1
      · refine ⟨by simp [hc, hl], by simp [hc, hl], ?_⟩
        intro vc2 c s h1 h2 h3
        injection h1 with h1e
        rw [← h1e, hc] at h2
        injection h2 with h2e
        rw [h2e, h3] at hl
        exact absurd rfl hl
      · refine ⟨by simp [hc, hl], by simp [hc, hl], ?_⟩
        intro vc2 c s h1 h2 h3
        injection h1 with h1e
        rw [← h1e, hc] at h2
        injection h2 with h2e
        simp only [hc, if_neg hl]
        rw [h2e, h3]
        rfl

/-- Witness for `resolveIssuer_raises_iff`: `goodBundle` (content present,
certificate present, exactly one organization) resolves to its single
organization string. -/
theorem resolveIssuer_raises_iff_witness :
    resolveIssuer goodBundle = .ok "sigstore.dev" :=
  (resolveIssuer_raises_iff goodBundle).2.2 { certificate := some goodCert } goodCert
    "sigstore.dev" rfl rfl rfl

/-- C3: custom-root precedence — for every bundle whose issuer resolution
succeeds, a non-empty `customTrustedRootPath` makes the selector pick the
Custom trust domain (and `chooseVerifier` materializes exactly the Custom
domain), regardless of the issuer value and of the `noPublicGood` flag. -/
theorem custom_root_precedence {V R P : Type} (env : SigstoreEnv V R P)
    (config : SigstoreConfig) (b : ProtobufBundle) (s : String)
    (hres : resolveIssuer b = .ok s) (hcustom : config.customTrustedRoot ≠ "") :
    selectDomain config s = .ok .custom ∧
    (chooseVerifier env config b).2 = [.custom] := by
  constructor
  · unfold selectDomain
    rw [if_pos hcustom]
  · rw [chooseVerifier_resolve_ok env config b s hres, if_pos hcustom]
    cases hx : env.newCustomVerifier config.customTrustedRoot <;> simp [hx]

/-- Witness for `custom_root_precedence` at a concrete recognized issuer
(`"sigstore.dev"`) with a non-empty custom trusted-root path. -/
theorem custom_root_precedence_witness :
    selectDomain customConfig "sigstore.dev" = .ok .custom ∧
    (chooseVerifier testEnv customConfig goodBundle).2 = [.custom] :=
  custom_root_precedence testEnv customConfig goodBundle "sigstore.dev" rfl (by decide)

/-- C4: with no custom trusted-root path configured, the selector picks
Public Good iff the issuer equals the Public Good organization and
`noPublicGood` is false; otherwise picks GitHub iff the issuer equals the
GitHub organization or `noPublicGood` is true; otherwise fails with the
unrecognized-issuer error.  With `noPublicGood` set, every issuer is routed
to the GitHub domain, so the unrecognized-issuer error is unreachable. -/
theorem selection_rules_two_to_four (config : SigstoreConfig) (s : String)
    (hcustom : config.customTrustedRoot = "") :
    (selectDomain config s = .ok .publicGood ↔
      (s = PublicGoodIssuerOrg ∧ config.noPublicGood = false)) ∧
    (selectDomain config s = .ok .github ↔
      (¬(s = PublicGoodIssuerOrg ∧ config.noPublicGood = false) ∧
        (s = GitHubIssuerOrg ∨ config.noPublicGood = true))) ∧
    (selectDomain config s = .error .unrecognizedIssuer ↔
      (s ≠ PublicGoodIssuerOrg ∧ s ≠ GitHubIssuerOrg ∧ config.noPublicGood = false)) ∧
    (config.noPublicGood = true → ∃ d, selectDomain config s = .ok d) := by
  unfold selectDomain
  have hne : ¬(config.customTrustedRoot ≠ "") := by simp [hcustom]
  rw [if_neg hne]
  by_cases h2 : s = PublicGoodIssuerOrg ∧ config.noPublicGood = false
  · rw [if_pos h2]
    refine ⟨by simp [h2], by simp [h2], by simp [h2.1], ?_⟩
    intro _
    exact ⟨.publicGood, rfl⟩
  · rw [if_neg h2]
    by_cases h3 : s = GitHubIssuerOrg ∨ config.noPublicGood = true
    · rw [if_pos h3]
      refine ⟨by simp [h2], by simp [h2, h3], ?_, ?_⟩
      · constructor
        · intro h
          exact absurd h (by simp)
        · rintro ⟨_, hs2, hnpg⟩
          cases h3 with
          | inl hg => exact absurd hg hs2
          | inr ht => rw [ht] at hnpg; exact absurd hnpg (by simp)
      · intro _
        exact ⟨.github, rfl⟩
    · rw [if_neg h3]
      have hgh : s ≠ GitHubIssuerOrg := fun hh => h3 (.inl hh)
      have hnpg : config.noPublicGood = false := by
        cases hb : config.noPublicGood
        · rfl
        · exact absurd (.inr hb) h3
      have hpg : s ≠ PublicGoodIssuerOrg := fun hh => h2 ⟨hh, hnpg⟩
      refine ⟨by simp [hpg], by simp [h3], by simp [hpg, hgh, hnpg], ?_⟩
      intro h
      rw [hnpg] at h
      exact absurd h (by simp)

/-- Witness for `selection_rules_two_to_four`: the unrecognized issuer
`"Acme Corp"` with no custom root and `noPublicGood = false` fails with the
unrecognized-issuer error. -/
theorem selection_rules_two_to_four_witness :
    selectDomain testConfig "Acme Corp" = .error .unrecognizedIssuer :=
  ((selection_rules_two_to_four testConfig "Acme Corp" rfl).2.2.1).2
    ⟨by decide, by decide, rfl⟩

/-- C9: selector determinism — two selector calls agreeing on the triple
(resolved issuer, customTrustedRootPath, noPublicGood) select the same
trust domain, and `chooseVerifier` materializes the same trust domains,
independent of the rest of the configuration (e.g. the logger handle). -/
theorem selector_deterministic {V R P : Type} (env : SigstoreEnv V R P)
    (c1 c2 : SigstoreConfig) (s : String)
    (hpath : c1.customTrustedRoot = c2.customTrustedRoot)
    (hnpg : c1.noPublicGood = c2.noPublicGood) :
    selectDomain c1 s = selectDomain c2 s ∧
    (∀ b1 b2 : ProtobufBundle, resolveIssuer b1 = .ok s → resolveIssuer b2 = .ok s →
      (chooseVerifier env c1 b1).2 = (chooseVerifier env c2 b2).2) := by
  constructor
  · unfold selectDomain
    rw [hpath, hnpg]
  · intro b1 b2 h1 h2
    rw [chooseVerifier_resolve_ok env c1 b1 s h1, chooseVerifier_resolve_ok env c2 b2 s h2,
      hpath, hnpg]

/-- Configuration that differs from `testConfig` only in the logger. -/
def loggerConfig : SigstoreConfig :=
  { customTrustedRoot := "", logger := "other", noPublicGood := false }

/-- Witness for `selector_deterministic`: two configurations differing only
in the logger make identical selections for issuer `"sigstore.dev"`. -/
theorem selector_deterministic_witness :
    selectDomain testConfig "sigstore.dev" = selectDomain loggerConfig "sigstore.dev" ∧
    (chooseVerifier testEnv testConfig goodBundle).2 =
      (chooseVerifier testEnv loggerConfig goodBundle).2 :=
  ⟨(selector_deterministic testEnv testConfig loggerConfig "sigstore.dev" rfl rfl).1,
    (selector_deterministic testEnv testConfig loggerConfig "sigstore.dev" rfl rfl).2
      goodBundle goodBundle rfl rfl⟩

/-- C10: the custom-root override does not bypass issuer resolution — when
resolution fails (no verification content, no certificate, or organization
count different from one), `chooseVerifier` returns that error without
invoking any verifier constructor, and `Verify` fails the whole batch, even
when `customTrustedRootPath` is non-empty. -/
theorem custom_root_no_bypass {V R P : Type} (env : SigstoreEnv V R P)
    (config : SigstoreConfig) (b : ProtobufBundle) (e : VerifyError)
    (rest : List Attestation) (policy : P)
    (hres : resolveIssuer b = .error e) (_hcustom : config.customTrustedRoot ≠ "") :
    chooseVerifier env config b = (.error e, []) ∧
    Verify env config ({ bundle := b } :: rest) policy =
      { verifyResults := [], error := some (.chooseVerifierFailed e) } := by
  have hch := chooseVerifier_resolve_error env config b e hres
  refine ⟨hch, ?_⟩
  unfold Verify
  rw [verifyAttestations_cons_choose_error env config policy ⟨b⟩ rest e [] hch]

/-- Witness for `custom_root_no_bypass`: a bundle with no certificate fails
the batch even though a custom trusted root is configured. -/
theorem custom_root_no_bypass_witness :
    chooseVerifier testEnv customConfig noCertBundle = (.error .leafCertNotFound, []) ∧
    Verify testEnv customConfig [noCertAtt] () =
      { verifyResults := [], error := some (.chooseVerifierFailed .leafCertNotFound) } :=
  custom_root_no_bypass testEnv customConfig noCertBundle .leafCertNotFound [] ()
    rfl (by decide)

/-- C2: success shape — when every attestation's verifier selection and
cryptographic verification succeed, `Verify` returns no error and a result
sequence of the same length as the input, in input order, pairing the i-th
input attestation with the verification result the capability produced
for it. -/
theorem verify_success_shape {V R P : Type} (env : SigstoreEnv V R P)
    (config : SigstoreConfig) (policy : P) (atts : List Attestation)
    (h : ∀ a ∈ atts, attFails env config policy a = false) :
    (Verify env config atts policy).error = none ∧
    (Verify env config atts policy).verifyResults.length = atts.length ∧
    (Verify env config atts policy).verifyResults =
      (atts.map fun a =>
        { attestation := a, verificationResult := attResult env config policy a }) := by
  have hva := verifyAttestations_all_ok env config policy atts h
  unfold Verify
  rw [hva]
  simp

/-- Witness for `verify_success_shape` on a concrete two-element batch
that verifies successfully. -/
theorem verify_success_shape_witness :
    (Verify testEnv testConfig [goodAtt, goodAtt] ()).error = none ∧
    (Verify testEnv testConfig [goodAtt, goodAtt] ()).verifyResults.length =
      [goodAtt, goodAtt].length ∧
    (Verify testEnv testConfig [goodAtt, goodAtt] ()).verifyResults =
      ([goodAtt, goodAtt].map fun a =>
        { attestation := a, verificationResult := attResult testEnv testConfig () a }) :=
  verify_success_shape testEnv testConfig () [goodAtt, goodAtt] (by decide)

/-- C6 counterexample: on the empty batch, `Verify` returns an empty result
sequence and no error — both components empty — refuting the claimed
exclusivity for every batch including the empty one. -/
theorem sigstoreResults_exclusivity_cex :
    ¬(((Verify testEnv testConfig ([] : List Attestation) ()).verifyResults ≠ [] ∧
        (Verify testEnv testConfig ([] : List Attestation) ()).error = none) ∨
      ((Verify testEnv testConfig ([] : List Attestation) ()).error.isSome = true ∧
        (Verify testEnv testConfig ([] : List Attestation) ()).verifyResults = [])) := by
  decide

/-- C6 amended: for every non-empty batch, the returned `SigstoreResults`
has either a non-empty result sequence and no error, or an error and no
result sequence.  (On the empty batch both components are empty.) -/
theorem sigstoreResults_exclusivity_nonempty {V R P : Type} (env : SigstoreEnv V R P)
    (config : SigstoreConfig) (policy : P) (atts : List Attestation)
    (hne : atts ≠ []) :
    ((Verify env config atts policy).verifyResults ≠ [] ∧
      (Verify env config atts policy).error = none) ∨
    ((Verify env config atts policy).error.isSome = true ∧
      (Verify env config atts policy).verifyResults = []) := by
  unfold Verify
  cases hres : (verifyAttestations env config policy atts).result with
  | error e =>
    right
    simp
  | ok l =>
    have hlen := verifyAttestations_ok_length env config policy atts l hres
    have hl : l ≠ [] := by
      intro hl
      rw [hl] at hlen
      cases atts with
      | nil => exact hne rfl
      | cons a rest => exact absurd hlen.symm (by simp)
    left
    constructor
    · simpa using hl
    · simp

/-- Witness for `sigstoreResults_exclusivity_nonempty` on a concrete
non-empty batch. -/
theorem sigstoreResults_exclusivity_nonempty_witness :
    ((Verify testEnv testConfig [goodAtt] ()).verifyResults ≠ [] ∧
      (Verify testEnv testConfig [goodAtt] ()).error = none) ∨
    ((Verify testEnv testConfig [goodAtt] ()).error.isSome = true ∧
      (Verify testEnv testConfig [goodAtt] ()).verifyResults = []) :=
  sigstoreResults_exclusivity_nonempty testEnv testConfig () [goodAtt] (by decide)

/-- C8 counterexample: in one `Verify` run over two attestations that both
select the Public Good domain, the verifier constructor for that domain is
invoked twice — the claimed per-domain at-most-once bound fails, because
`chooseVerifier` caches nothing across the loop. -/
theorem provider_materialization_cex :
    (verifyAttestations testEnv testConfig () [goodAtt, goodAtt]).providerCalls =
      [.publicGood, .publicGood] ∧
    ¬((verifyAttestations testEnv testConfig () [goodAtt, goodAtt]).providerCalls.count
        TrustDomain.publicGood ≤ 1) := by
  decide

theorem trace_flatMap_length {V R P : Type} (env : SigstoreEnv V R P)
    (config : SigstoreConfig) (policy : P) :
    ∀ atts : List Attestation, (∀ a ∈ atts, attFails env config policy a = false) →
      (atts.flatMap fun a => (chooseVerifier env config a.bundle).2).length = atts.length := by
  intro atts
  induction atts with
  | nil => intro _; simp
  | cons a rest ih =>
    intro h
    obtain ⟨vf, s, r, h1, _⟩ := (attFails_false_iff env config policy a).1 (h a (by simp))
    have hlen := chooseVerifier_ok_trace_length env config a.bundle vf s h1
    rw [List.flatMap_cons]
    simp [hlen, ih (fun x hx => h x (by simp [hx]))]
    omega

/-- C8 amended: the Trust Root Provider is invoked once per attestation
processed — on a fully successful batch, exactly once per input
attestation, with no per-domain caching — so a trust domain selected by
several attestations is materialized several times within one call. -/
theorem provider_calls_once_per_attestation {V R P : Type} (env : SigstoreEnv V R P)
    (config : SigstoreConfig) (policy : P) (atts : List Attestation)
    (h : ∀ a ∈ atts, attFails env config policy a = false) :
    (verifyAttestations env config policy atts).providerCalls.length = atts.length := by
  rw [verifyAttestations_all_ok env config policy atts h]
  exact trace_flatMap_length env config policy atts h

/-- Witness for `provider_calls_once_per_attestation` on a concrete
two-element batch: two provider invocations. -/
theorem provider_calls_once_per_attestation_witness :
    (verifyAttestations testEnv testConfig () [goodAtt, goodAtt]).providerCalls.length =
      [goodAtt, goodAtt].length :=
  provider_calls_once_per_attestation testEnv testConfig () [goodAtt, goodAtt] (by decide)

theorem verifyAttestations_error_elim {V R P : Type} (env : SigstoreEnv V R P)
    (config : SigstoreConfig) (policy : P) :
    ∀ (atts : List Attestation) (e : VerifyError),
      (verifyAttestations env config policy atts).result = .error e →
      (∃ a ∈ atts, ∃ e0, (chooseVerifier env config a.bundle).1 = .error e0 ∧
        e = .chooseVerifierFailed e0) ∨
      (∃ a ∈ atts, ∃ vf s msg, (chooseVerifier env config a.bundle).1 = .ok (vf, s) ∧
        env.verifierVerify vf a.bundle policy = .error msg ∧
        e = .verificationFailed s msg) := by
  intro atts
  induction atts with
  | nil =>
    intro e h
    rw [verifyAttestations_nil] at h
    exact absurd h (by simp)
  | cons a rest ih =>
    intro e h
    cases h1 : (chooseVerifier env config a.bundle).1 with
    | error err =>
      have hpair : chooseVerifier env config a.bundle =
          (.error err, (chooseVerifier env config a.bundle).2) := by rw [← h1]
      rw [verifyAttestations_cons_choose_error env config policy a rest err _ hpair] at h
      injection h with he
      exact .inl ⟨a, by simp, err, h1, he.symm⟩
    | ok vs =>
      obtain ⟨vf, s⟩ := vs
      have hpair : chooseVerifier env config a.bundle =
          (.ok (vf, s), (chooseVerifier env config a.bundle).2) := by rw [← h1]
      cases h2 : env.verifierVerify vf a.bundle policy with
      | error msg =>
        rw [verifyAttestations_cons_verify_error env config policy a rest vf s _ msg hpair h2]
          at h
        injection h with he
        exact .inr ⟨a, by simp, vf, s, msg, h1, h2, he.symm⟩
      | ok r =>
        rw [verifyAttestations_cons_ok env config policy a rest vf s _ r hpair h2] at h
        simp only [] at h
        cases h3 : (verifyAttestations env config policy rest).result with
        | error e2 =>
          simp only [h3] at h
          injection h with he
          rw [he] at h3
          rcases ih e h3 with ⟨x, hx, e0, hxe⟩ | ⟨x, hx, vf2, s2, msg2, hxe⟩
          · exact .inl ⟨x, List.mem_cons_of_mem a hx, e0, hxe⟩
          · exact .inr ⟨x, List.mem_cons_of_mem a hx, vf2, s2, msg2, hxe⟩
        | ok aprs =>
          simp only [h3] at h
          exact absurd h (by simp)

/-- C7 counterexample: the single error `Verify` returns carries no
attestation index — the same error value (and hence the same rendered
message) results whether the failing attestation sits at index 0 or at
index 1 of the batch — and a selection failure produces an error carrying
no issuer name at all (resolution failed before an issuer was known). -/
theorem error_context_cex :
    (Verify testEnv testConfig [badAtt] ()).error =
      (Verify testEnv testConfig [goodAtt, badAtt] ()).error ∧
    (Verify testEnv testConfig [badAtt] ()).error =
      some (.verificationFailed "sigstore.dev" "boom") ∧
    (Verify testEnv testConfig [noCertAtt] ()).error =
      some (.chooseVerifierFailed .leafCertNotFound) := by
  decide

/-- C7 amended: every failing batch returns a single error that is either a
verifier-selection failure wrapped with the fixed recognized-issuer prefix
(carrying neither issuer name nor index), or a cryptographic verification
failure augmented with the issuer name of the failing attestation (its
message is exactly the issuer-naming format string); the attestation index
appears only in progress logging, never in the error. -/
theorem error_context_attachment {V R P : Type} (env : SigstoreEnv V R P)
    (config : SigstoreConfig) (policy : P) (atts : List Attestation)
    (e : VerifyError) (h : (Verify env config atts policy).error = some e) :
    (∃ a ∈ atts, ∃ e0, (chooseVerifier env config a.bundle).1 = .error e0 ∧
      e = .chooseVerifierFailed e0) ∨
    (∃ a ∈ atts, ∃ vf s msg, (chooseVerifier env config a.bundle).1 = .ok (vf, s) ∧
      env.verifierVerify vf a.bundle policy = .error msg ∧
      e = .verificationFailed s msg ∧
      e.message = "verifying with issuer \"" ++ s ++ "\": " ++ msg) := by
  unfold Verify at h
  cases hres : (verifyAttestations env config policy atts).result with
  | error e2 =>
    simp only [hres] at h
    injection h with he
    rw [he] at hres
    rcases verifyAttestations_error_elim env config policy atts e hres with
      ⟨x, hx, e0, hxe⟩ | ⟨x, hx, vf, s, msg, hc, hv, hve⟩
    · exact .inl ⟨x, hx, e0, hxe⟩
    · refine .inr ⟨x, hx, vf, s, msg, hc, hv, hve, ?_⟩
      rw [hve]
      rfl
  | ok l =>
    simp only [hres] at h
    exact absurd h (by simp)

/-- Witness for `error_context_attachment`: a concrete failing batch whose
error is the verification failure naming issuer `"sigstore.dev"`. -/
theorem error_context_attachment_witness :
    (∃ a ∈ [badAtt], ∃ e0,
      (chooseVerifier testEnv testConfig a.bundle).1 = .error e0 ∧
      VerifyError.verificationFailed "sigstore.dev" "boom" = .chooseVerifierFailed e0) ∨
    (∃ a ∈ [badAtt], ∃ vf s msg,
      (chooseVerifier testEnv testConfig a.bundle).1 = .ok (vf, s) ∧
      testEnv.verifierVerify vf a.bundle () = .error msg ∧
      VerifyError.verificationFailed "sigstore.dev" "boom" = .verificationFailed s msg ∧
      (VerifyError.verificationFailed "sigstore.dev" "boom").message =
        "verifying with issuer \"" ++ s ++ "\": " ++ msg) :=
  error_context_attachment testEnv testConfig () [badAtt]
    (.verificationFailed "sigstore.dev" "boom") (by decide)

theorem verifyAttestations_fail_fast {V R P : Type} (env : SigstoreEnv V R P)
    (config : SigstoreConfig) (policy : P) :
    ∀ atts : List Attestation, (∃ a ∈ atts, attFails env config policy a = true) →
      (∃ e, (verifyAttestations env config policy atts).result = .error e) ∧
      ((verifyAttestations env config policy atts).svcCalls =
          atts.take (atts.findIdx (attFails env config policy)) ∨
        (verifyAttestations env config policy atts).svcCalls =
          atts.take (atts.findIdx (attFails env config policy) + 1)) := by
  intro atts
  induction atts with
  | nil =>
    rintro ⟨a, ha, _⟩
    exact absurd ha (by simp)
  | cons a rest ih =>
    intro hex
    by_cases hfa : attFails env config policy a = true
    · have hidx : (a :: rest).findIdx (attFails env config policy) = 0 := by
        simp [List.findIdx_cons, hfa]
      rcases attFails_true_elim env config policy a hfa with ⟨e, h1⟩ | ⟨vf, s, msg, h1, h2⟩
      · have hpair : chooseVerifier env config a.bundle =
            (.error e, (chooseVerifier env config a.bundle).2) := by rw [← h1]
        rw [verifyAttestations_cons_choose_error env config policy a rest e _ hpair]
        refine ⟨⟨.chooseVerifierFailed e, rfl⟩, .inl ?_⟩
        rw [hidx]
        rfl
      · have hpair : chooseVerifier env config a.bundle =
            (.ok (vf, s), (chooseVerifier env config a.bundle).2) := by rw [← h1]
        rw [verifyAttestations_cons_verify_error env config policy a rest vf s _ msg hpair h2]
        refine ⟨⟨.verificationFailed s msg, rfl⟩, .inr ?_⟩
        rw [hidx]
        rfl
    · have hfa2 : attFails env config policy a = false := by
        cases hb : attFails env config policy a
        · rfl
        · exact absurd hb hfa
      obtain ⟨vf, s, r, h1, h2⟩ := (attFails_false_iff env config policy a).1 hfa2
      have hpair : chooseVerifier env config a.bundle =
          (.ok (vf, s), (chooseVerifier env config a.bundle).2) := by rw [← h1]
      have hrest : ∃ x ∈ rest, attFails env config policy x = true := by
        rcases hex with ⟨x, hx, hfx⟩
        rcases List.mem_cons.1 hx with rfl | hx2
        · exact absurd hfx (by simp [hfa2])
        · exact ⟨x, hx2, hfx⟩
      obtain ⟨⟨e, hrese⟩, hsvc⟩ := ih hrest
      rw [verifyAttestations_cons_ok env config policy a rest vf s _ r hpair h2]
      have hidx : (a :: rest).findIdx (attFails env config policy) =
          rest.findIdx (attFails env config policy) + 1 := by
        simp [List.findIdx_cons, hfa2]
      refine ⟨⟨e, by simp [hrese]⟩, ?_⟩
      simp only [hidx]
      rcases hsvc with hs | hs
      · left
        rw [List.take_succ_cons, ← hs]
      · right
        rw [List.take_succ_cons, ← hs]

/-- C1: fail-fast, whole-batch semantics — if verifier selection or
cryptographic verification fails for any attestation of the batch, `Verify`
returns a `SigstoreResults` holding an error and an empty result sequence
(never a partial one), and the attestations handed to the Signature
Verification Capability form exactly a prefix of the input ending at the
first failing attestation — no attestation after it is ever passed to the
capability. -/
theorem verify_fail_fast {V R P : Type} (env : SigstoreEnv V R P)
    (config : SigstoreConfig) (policy : P) (atts : List Attestation)
    (h : ∃ a ∈ atts, attFails env config policy a = true) :
    (Verify env config atts policy).error.isSome = true ∧
    (Verify env config atts policy).verifyResults = [] ∧
    ((verifyAttestations env config policy atts).svcCalls =
        atts.take (atts.findIdx (attFails env config policy)) ∨
      (verifyAttestations env config policy atts).svcCalls =
        atts.take (atts.findIdx (attFails env config policy) + 1)) := by
  obtain ⟨⟨e, hrese⟩, hsvc⟩ := verifyAttestations_fail_fast env config policy atts h
  refine ⟨?_, ?_, hsvc⟩
  · unfold Verify
    simp only [hrese]
    rfl
  · unfold Verify
    simp only [hrese]

/-- Witness for `verify_fail_fast`: in the batch
`[goodAtt, badAtt, goodAtt]` the second attestation fails cryptographic
verification; the batch returns an error, no results, and only the first
two attestations were handed to the capability. -/
theorem verify_fail_fast_witness :
    (Verify testEnv testConfig [goodAtt, badAtt, goodAtt] ()).error.isSome = true ∧
    (Verify testEnv testConfig [goodAtt, badAtt, goodAtt] ()).verifyResults = [] ∧
    ((verifyAttestations testEnv testConfig () [goodAtt, badAtt, goodAtt]).svcCalls =
        [goodAtt, badAtt, goodAtt].take
          ([goodAtt, badAtt, goodAtt].findIdx (attFails testEnv testConfig ())) ∨
      (verifyAttestations testEnv testConfig () [goodAtt, badAtt, goodAtt]).svcCalls =
        [goodAtt, badAtt, goodAtt].take
          ([goodAtt, badAtt, goodAtt].findIdx (attFails testEnv testConfig ()) + 1)) :=
  verify_fail_fast testEnv testConfig () [goodAtt, badAtt, goodAtt]
    ⟨badAtt, by decide, by decide⟩
